import Mathlib

/-!
Shallow embedding of the jewelry try-on backend (src/backend of Aashisho1o1/tryon).

Conventions of the embedding:
* the MongoDB store is a pair of document lists (`jewelry_items`, `analytics_events`);
  `find_one` is `List.find?`, `update_one` updates the first matching document,
  `insert_one` appends, and a sort is `List.mergeSort`;
* timestamps (`datetime.utcnow()`) are natural numbers passed in as a `now` argument;
* Python floats (`price.amount`, `revenue_generated`) are rationals;
* nanoid `generate(size=n)` is modelled as `n` draws from a character source
  `rand : Nat → Char`;
* a pydantic `Optional[T]` field is `Option T`; a field explicitly present in the
  request body is `some`, an absent one is resolved to the declared default of the model
  (pydantic applies the default before the handler runs), so `exclude_unset`
  corresponds to acting only on `some` fields of the update model;
* every handler body runs inside `try/except`: `HTTPException(404)` and the Python
  exceptions that the generic handler converts to a 500 envelope are the
  constructors of `ApiError`.
-/

namespace Tryon

/-! Enumerations from models.py. -/

inductive JewelryType where
  | earrings
  | necklace
  | ring
  | bracelet
deriving DecidableEq

def JewelryType.toStr : JewelryType → String
  | .earrings => "earrings"
  | .necklace => "necklace"
  | .ring => "ring"
  | .bracelet => "bracelet"

inductive JewelryStatus where
  | draft
  | active
  | archived
deriving DecidableEq

def JewelryStatus.toStr : JewelryStatus → String
  | .draft => "draft"
  | .active => "active"
  | .archived => "archived"

inductive EventType where
  | view
  | try_on
  | share
  | click
  | purchase
deriving DecidableEq

/-- Value string of the str-mixin enum member, as interpolated by the f-string
in track_event and as stored in the event document. -/
def EventType.toStr : EventType → String
  | .view => "view"
  | .try_on => "try_on"
  | .share => "share"
  | .click => "click"
  | .purchase => "purchase"

/-! Nested jewelry models from models.py. -/

structure PriceModel where
  amount : Rat
  currency : String := "NPR"
  discount : Option Rat := none
deriving DecidableEq

structure ImagesModel where
  thumbnail : Option String := none
  main : Option String := none
  gallery : List String := []
deriving DecidableEq

/-- The position_offset dictionary of ARConfigModel, with keys x and y. -/
structure PositionOffset where
  x : Int := 0
  y : Int := 0
deriving DecidableEq

structure ARConfigModel where
  color : String := "#FFD700"
  size : Int := 30
  position_offset : PositionOffset := {}
  landmarks : List Int := [234, 454]
  render_type : String := "circle"
deriving DecidableEq

structure MetadataModel where
  material : Option String := none
  weight : Option String := none
  tags : List String := []
  category : Option String := none
  subcategory : Option String := none
deriving DecidableEq

structure StockModel where
  available : Bool := true
  quantity : Int := 0
  low_stock_threshold : Int := 3
deriving DecidableEq

structure ShareLinkModel where
  short_code : String
  full_url : String
  qr_code : Option String := none
deriving DecidableEq

/-- Stored analytics sub-document of a jewelry item (AnalyticsModel in models.py).
MongoDB documents are schemaless and a $inc on a field that is absent from the
document creates it with the increment as value; `extra` holds such counter fields
outside the declared schema (reachable for event types click and purchase, whose
concatenated field names clicks and purchases are not schema fields). -/
structure AnalyticsModel where
  views : Nat := 0
  try_ons : Nat := 0
  shares : Nat := 0
  conversions : Nat := 0
  revenue_generated : Rat := 0
  extra : List (String × Nat) := []
deriving DecidableEq

structure SEOModel where
  meta_title : Option String := none
  meta_description : Option String := none
  keywords : List String := []
deriving DecidableEq

/-- A stored jewelry document, with the exact fields assembled by create_jewelry
(main.py lines 192-218). `metadata = none` models the empty document stored when
the creation input carried an explicit null. -/
structure JewelryDoc where
  item_id : String
  name : String
  type : JewelryType
  description : Option String
  price : PriceModel
  images : ImagesModel
  ar_config : ARConfigModel
  metadata : Option MetadataModel
  stock : StockModel
  share_link : ShareLinkModel
  analytics : AnalyticsModel
  seo : SEOModel
  created_at : Nat
  updated_at : Nat
  status : JewelryStatus
deriving DecidableEq

/-! Analytics event models from models.py. -/

structure UserDataModel where
  device : Option String := none
  browser : Option String := none
  os : Option String := none
  location : Option (List (String × String)) := none
  ip_address : Option String := none
deriving DecidableEq

structure SourceModel where
  platform : Option String := none
  referrer : Option String := none
  campaign : Option String := none
deriving DecidableEq

structure InteractionsModel where
  camera_started : Bool := false
  face_detected : Bool := false
  photo_captured : Bool := false
  shared : Bool := false
deriving DecidableEq

/-- A stored analytics event document, with the fields assembled by track_event
(main.py lines 310-320). An optional blob that arrived as null is stored by the
handler as an empty document, modelled as `none`. -/
structure EventDoc where
  event_id : String
  jewelry_id : String
  event_type : EventType
  timestamp : Nat
  session_id : Option String
  user_data : Option UserDataModel
  source : Option SourceModel
  duration_seconds : Option Int
  interactions : Option InteractionsModel
deriving DecidableEq

/-! Request models from models.py. Defaults are the pydantic field defaults,
applied when the request body omits the field; an explicit null arrives as
`none`. -/

structure JewelryItemCreate where
  name : String
  type : JewelryType
  description : Option String := none
  price : PriceModel
  metadata : Option MetadataModel := some {}
  ar_config : Option ARConfigModel := some {}
  stock : Option StockModel := some {}

structure JewelryItemUpdate where
  name : Option String := none
  type : Option JewelryType := none
  description : Option String := none
  price : Option PriceModel := none
  metadata : Option MetadataModel := none
  ar_config : Option ARConfigModel := none
  stock : Option StockModel := none
  status : Option JewelryStatus := none

structure AnalyticsEventCreate where
  jewelry_id : String
  event_type : EventType
  session_id : Option String := none
  user_data : Option UserDataModel := none
  source : Option SourceModel := none
  duration_seconds : Option Int := none
  interactions : Option InteractionsModel := none

/-! The document store. -/

structure StoreState where
  jewelry_items : List JewelryDoc := []
  analytics_events : List EventDoc := []
deriving DecidableEq

/-- Outcomes that the request boundary turns into an HTTP error envelope:
a raised HTTPException(404), or a Python exception caught by the generic
handler and converted to the 500 envelope. -/
inductive ApiError where
  | notFound
  | nameError
  | valueError
  | zeroDivisionError
deriving DecidableEq

def ApiError.statusCode : ApiError → Nat
  | .notFound => 404
  | .nameError => 500
  | .valueError => 500
  | .zeroDivisionError => 500

deriving instance DecidableEq for Except

/-- The update_one primitive of the store: rewrite the first document matching
the filter with f, leave everything else in place. -/
def updateFirst (p : α → Bool) (f : α → α) : List α → List α
  | [] => []
  | x :: xs => if p x then f x :: xs else x :: updateFirst p f xs

/-! Utility functions from main.py. -/

/-- Model of nanoid generate(size=n): n draws from a character source. -/
def generate (size : Nat) (rand : Nat → Char) : String :=
  String.mk ((List.range size).map rand)

def generate_short_code (rand : Nat → Char) : String :=
  generate 8 rand

def create_share_link (short_code : String) : ShareLinkModel :=
  { short_code := short_code
    full_url := "https://yoursite.com/try-on/" ++ short_code
    qr_code := some
      ("https://api.qrserver.com/v1/create-qr-code/?size=200x200&data=https://yoursite.com/try-on/"
        ++ short_code) }

/-! Response shapes of the handlers (the JSON dictionaries they return). -/

structure GetResponse where
  success : Bool
  item : JewelryDoc
deriving DecidableEq

structure ListResponse where
  success : Bool
  items : List JewelryDoc
  count : Nat
  page : Int
  page_size : Int
  total_count : Nat
  total_pages : Int
deriving DecidableEq

structure CreateResponse where
  success : Bool
  message : String
  item : JewelryDoc
deriving DecidableEq

structure UpdateResponse where
  success : Bool
  message : String
  item : JewelryDoc
deriving DecidableEq

structure MessageResponse where
  success : Bool
  message : String
deriving DecidableEq

structure ItemAnalyticsResponse where
  success : Bool
  item_id : String
  item_name : String
  stats : AnalyticsModel
  recent_events : List EventDoc
deriving DecidableEq

structure SummaryData where
  total_items : Nat
  total_views : Nat
  total_try_ons : Nat
  total_shares : Nat
  total_conversions : Nat
  total_revenue : Rat
  conversion_rate : Rat
deriving DecidableEq

structure OverallResponse where
  success : Bool
  summary : SummaryData
  top_items : List JewelryDoc
deriving DecidableEq

/-! GET /jewelry (get_all_jewelry, main.py lines 108-149). -/

/-- Truthiness of an optional query-string value, as tested by
`if status` and `if type` when the query is built. -/
def truthy : Option String → Bool
  | none => false
  | some s => !(s == "")

/-- The find query built at main.py lines 119-121: a status equality filter
when the status parameter is truthy, plus a type equality filter when the
type parameter is truthy. -/
def matchesQuery (ty status : Option String) (d : JewelryDoc) : Bool :=
  (!truthy status || (JewelryStatus.toStr d.status == status.getD "")) &&
  (!truthy ty || (JewelryType.toStr d.type == ty.getD ""))

/-- Mongo sort("created_at", -1), modelled as a stable sort by descending
created_at. -/
def sortByCreatedDesc (l : List JewelryDoc) : List JewelryDoc :=
  l.insertionSort (fun a b => b.created_at ≤ a.created_at)

/-- GET /jewelry. The store sort/skip/limit chain is: sort by created_at
descending, drop skip documents, return at most page_size documents.
Driver behavior at the boundaries, faithful to pymongo/motor:
cursor.skip rejects a negative skip with ValueError; to_list rejects a
negative length with ValueError; limit(0) means no limit but
to_list(length=0) then yields no documents. Both ValueErrors and the
ZeroDivisionError of the total_pages line are caught by the generic
except and become the 500 envelope. -/
def get_all_jewelry (st : StoreState) (page page_size : Int)
    (ty status : Option String) : Except ApiError ListResponse :=
  let skip := (page - 1) * page_size
  if skip < 0 then .error .valueError
  else if page_size < 0 then .error .valueError
  else
    let matching := st.jewelry_items.filter (matchesQuery ty status)
    let items := if page_size == 0 then []
      else ((sortByCreatedDesc matching).drop skip.toNat).take page_size.toNat
    let total_count := matching.length
    if page_size == 0 then .error .zeroDivisionError
    else
      .ok { success := true
            items := items
            count := items.length
            page := page
            page_size := page_size
            total_count := total_count
            total_pages := Int.fdiv ((total_count : Int) + page_size - 1) page_size }

/-! GET /jewelry/item_id (get_jewelry_by_id, main.py lines 152-176). -/

/-- GET /jewelry/item_id: find the document; 404 when absent; otherwise
$inc analytics.views by 1 on the matching document and return the
document as read before the increment. -/
def get_jewelry_by_id (st : StoreState) (item_id : String) :
    Except ApiError GetResponse × StoreState :=
  match st.jewelry_items.find? (fun d => d.item_id == item_id) with
  | none => (.error .notFound, st)
  | some item =>
      (.ok { success := true, item := item },
       { st with jewelry_items :=
           (updateFirst (fun d => d.item_id == item_id)
             (fun d => { d with analytics := { d.analytics with views := d.analytics.views + 1 } })
             st.jewelry_items) })

/-! POST /jewelry (create_jewelry, main.py lines 179-231). -/

/-- POST /jewelry. When the creation input carries an explicit null ar_config,
line 199 of main.py evaluates `ARConfigModel().dict()`, but main.py never
imports ARConfigModel: the NameError is raised while the document dictionary
is being built, before the insert, and the generic except turns it into the
500 envelope. On the non-null path one document is inserted. -/
def create_jewelry (st : StoreState) (rand : Nat → Char) (now : Nat)
    (item : JewelryItemCreate) : Except ApiError CreateResponse × StoreState :=
  let item_id := generate_short_code rand
  let share_link := create_share_link item_id
  match item.ar_config with
  | none => (.error .nameError, st)
  | some cfg =>
      let jewelry_doc : JewelryDoc :=
        { item_id := item_id
          name := item.name
          type := item.type
          description := item.description
          price := item.price
          images := { thumbnail := none, main := none, gallery := [] }
          ar_config := cfg
          metadata := item.metadata
          stock := item.stock.getD { available := true, quantity := 0, low_stock_threshold := 3 }
          share_link := share_link
          analytics := { views := 0, try_ons := 0, shares := 0, conversions := 0
                         revenue_generated := 0, extra := [] }
          seo := { meta_title := some (item.name ++ " - Virtual Try-On")
                   meta_description := some (String.mk ((item.description.getD "").data.take 160))
                   keywords := [] }
          created_at := now
          updated_at := now
          status := .active }
      (.ok { success := true, message := "Jewelry item created successfully", item := jewelry_doc },
       { st with jewelry_items := st.jewelry_items ++ [jewelry_doc] })

/-! PUT /jewelry/item_id (update_jewelry, main.py lines 234-269). -/

/-- The $set document built from item.dict(exclude_unset=True) plus the
refreshed updated_at, applied to a stored document: a field present in the
update model overwrites the stored field, an unset field is untouched. -/
def applyUpdate (upd : JewelryItemUpdate) (now : Nat) (d : JewelryDoc) : JewelryDoc :=
  { d with
    name := upd.name.getD d.name
    type := upd.type.getD d.type
    description := match upd.description with
      | some s => some s
      | none => d.description
    price := upd.price.getD d.price
    metadata := match upd.metadata with
      | some m => some m
      | none => d.metadata
    ar_config := upd.ar_config.getD d.ar_config
    stock := upd.stock.getD d.stock
    status := upd.status.getD d.status
    updated_at := now }

/-- PUT /jewelry/item_id: 404 when the item is absent (checked before any
write); otherwise $set the supplied fields plus updated_at on the first
matching document, re-read it, and return it. The inner none branch is
unreachable because the update preserves item_id. -/
def update_jewelry (st : StoreState) (item_id : String) (item : JewelryItemUpdate)
    (now : Nat) : Except ApiError UpdateResponse × StoreState :=
  match st.jewelry_items.find? (fun d => d.item_id == item_id) with
  | none => (.error .notFound, st)
  | some _ =>
      let items1 := updateFirst (fun d => d.item_id == item_id) (applyUpdate item now)
        st.jewelry_items
      let st1 : StoreState := { st with jewelry_items := items1 }
      match items1.find? (fun d => d.item_id == item_id) with
      | none => (.error .notFound, st1)
      | some updated =>
          (.ok { success := true, message := "Jewelry item updated successfully", item := updated },
           st1)

/-! DELETE /jewelry/item_id (delete_jewelry, main.py lines 272-292). -/

/-- DELETE /jewelry/item_id: update_one setting status archived and refreshing
updated_at, then 404 when the update matched no document. -/
def delete_jewelry (st : StoreState) (item_id : String) (now : Nat) :
    Except ApiError MessageResponse × StoreState :=
  let matched := st.jewelry_items.any (fun d => d.item_id == item_id)
  let items1 := updateFirst (fun d => d.item_id == item_id)
    (fun d => { d with status := .archived, updated_at := now }) st.jewelry_items
  let st1 : StoreState := { st with jewelry_items := items1 }
  if matched then (.ok { success := true, message := "Jewelry item deleted successfully" }, st1)
  else (.error .notFound, st1)

/-! POST /analytics (track_event, main.py lines 299-334). -/

/-- Creation or bump of a counter field that is not part of the declared
analytics schema; the entry is keyed by the dotted path of the $inc. -/
def bumpExtra (name : String) : List (String × Nat) → List (String × Nat)
  | [] => [(name, 1)]
  | (k, v) :: rest => if k == name then (k, v + 1) :: rest else (k, v) :: bumpExtra name rest

/-- Mongo $inc on a dotted path of a jewelry document: the four counter
sub-fields of analytics that exist in the schema are bumped in place, and a
$inc on any other path creates that field with value 1 (kept in
analytics.extra, keyed by the full dotted path). -/
def JewelryDoc.incPath (d : JewelryDoc) (path : String) : JewelryDoc :=
  if path == "analytics.views" then
    { d with analytics := { d.analytics with views := d.analytics.views + 1 } }
  else if path == "analytics.try_ons" then
    { d with analytics := { d.analytics with try_ons := d.analytics.try_ons + 1 } }
  else if path == "analytics.shares" then
    { d with analytics := { d.analytics with shares := d.analytics.shares + 1 } }
  else if path == "analytics.conversions" then
    { d with analytics := { d.analytics with conversions := d.analytics.conversions + 1 } }
  else
    { d with analytics := { d.analytics with extra := bumpExtra path d.analytics.extra } }

/-- POST /analytics: generate a 16-character event id, stamp the server-side
timestamp, insert the event document, then $inc the counter field whose name
is the literal concatenation analytics. ++ event_type ++ s on the first item
matching jewelry_id (a no-op on zero matched documents). Always succeeds. -/
def track_event (st : StoreState) (rand : Nat → Char) (now : Nat)
    (event : AnalyticsEventCreate) : Except ApiError MessageResponse × StoreState :=
  let event_id := generate 16 rand
  let event_doc : EventDoc :=
    { event_id := event_id
      jewelry_id := event.jewelry_id
      event_type := event.event_type
      timestamp := now
      session_id := event.session_id
      user_data := event.user_data
      source := event.source
      duration_seconds := event.duration_seconds
      interactions := event.interactions }
  let st1 : StoreState := { st with analytics_events := st.analytics_events ++ [event_doc] }
  let update_field := "analytics." ++ EventType.toStr event.event_type ++ "s"
  let st2 : StoreState := { st1 with jewelry_items :=
      (updateFirst (fun d => d.item_id == event.jewelry_id)
        (fun d => d.incPath update_field) st1.jewelry_items) }
  (.ok { success := true, message := "Event tracked successfully" }, st2)

/-! GET /analytics/item_id (get_item_analytics, main.py lines 337-367). -/

/-- GET /analytics/item_id: 404 when absent, otherwise the item name, its
analytics, and the 100 most recent events for it by timestamp descending. -/
def get_item_analytics (st : StoreState) (item_id : String) :
    Except ApiError ItemAnalyticsResponse :=
  match st.jewelry_items.find? (fun d => d.item_id == item_id) with
  | none => .error .notFound
  | some item =>
      let events := ((st.analytics_events.filter (fun e => e.jewelry_id == item_id)).insertionSort
        (fun a b => b.timestamp ≤ a.timestamp)).take 100
      .ok { success := true
            item_id := item_id
            item_name := item.name
            stats := item.analytics
            recent_events := events }

/-! GET /analytics (get_overall_analytics, main.py lines 370-423). -/

/-- Accumulator of the $group stage of the aggregation pipeline. -/
structure GroupAcc where
  total_items : Nat := 0
  total_views : Nat := 0
  total_try_ons : Nat := 0
  total_shares : Nat := 0
  total_conversions : Nat := 0
  total_revenue : Rat := 0
deriving DecidableEq

def groupStep (acc : GroupAcc) (d : JewelryDoc) : GroupAcc :=
  { total_items := acc.total_items + 1
    total_views := acc.total_views + d.analytics.views
    total_try_ons := acc.total_try_ons + d.analytics.try_ons
    total_shares := acc.total_shares + d.analytics.shares
    total_conversions := acc.total_conversions + d.analytics.conversions
    total_revenue := acc.total_revenue + d.analytics.revenue_generated }

/-- The $match status active plus $group summing stage; over an empty match the
pipeline returns no row and every summary value defaults to 0, which is also
the fold over the empty list. -/
def aggregateSummary (l : List JewelryDoc) : GroupAcc :=
  l.foldl groupStep {}

/-- Round half to even at integer precision, the rounding of Python round. -/
def roundHalfEven (q : Rat) : Int :=
  let f := ⌊q⌋
  let r := q - f
  if r < 1/2 then f
  else if 1/2 < r then f + 1
  else if f % 2 = 0 then f else f + 1

/-- Python round(x, 2) on the exact rational value. -/
def pyRound2 (q : Rat) : Rat :=
  ((roundHalfEven (q * 100) : Int) : Rat) / 100

/-- GET /analytics: aggregate over status active items, guard the conversion
rate against a zero try_ons sum, round it to 2 decimal places, and return the
top 5 active items by analytics.try_ons descending. -/
def get_overall_analytics (st : StoreState) : OverallResponse :=
  let summary := aggregateSummary
    (st.jewelry_items.filter (fun d => JewelryStatus.toStr d.status == "active"))
  let try_ons := summary.total_try_ons
  let conversions := summary.total_conversions
  let conversion_rate : Rat :=
    if try_ons > 0 then (conversions : Rat) / (try_ons : Rat) * 100 else 0
  let top_items :=
    ((st.jewelry_items.filter (fun d => JewelryStatus.toStr d.status == "active")).insertionSort
      (fun a b => b.analytics.try_ons ≤ a.analytics.try_ons)).take 5
  { success := true
    summary := { total_items := summary.total_items
                 total_views := summary.total_views
                 total_try_ons := summary.total_try_ons
                 total_shares := summary.total_shares
                 total_conversions := summary.total_conversions
                 total_revenue := summary.total_revenue
                 conversion_rate := pyRound2 conversion_rate }
    top_items := top_items }

/-! The operations of the service as a single step type, for statements that
quantify over every exposed operation. -/

inductive Op where
  | getOne (item_id : String)
  | listAll (page page_size : Int) (ty status : Option String)
  | create (rand : Nat → Char) (now : Nat) (inp : JewelryItemCreate)
  | update (item_id : String) (upd : JewelryItemUpdate) (now : Nat)
  | softDelete (item_id : String) (now : Nat)
  | trackEvent (rand : Nat → Char) (now : Nat) (inp : AnalyticsEventCreate)
  | itemAnalytics (item_id : String)
  | overallAnalytics

/-- The store reached after one operation; list and analytics reads leave the
store as it is. -/
def applyOp (op : Op) (st : StoreState) : StoreState :=
  match op with
  | .getOne i => (get_jewelry_by_id st i).2
  | .listAll _ _ _ _ => st
  | .create rand now inp => (create_jewelry st rand now inp).2
  | .update i upd now => (update_jewelry st i upd now).2
  | .softDelete i now => (delete_jewelry st i now).2
  | .trackEvent rand now inp => (track_event st rand now inp).2
  | .itemAnalytics _ => st
  | .overallAnalytics => st

/-! Concrete fixtures used by witnesses and counterexamples. -/

/-- Character source that always yields the letter a, so generated codes are
runs of the letter a. -/
def randA : Nat → Char := fun _ => 'a'

/-- A minimal valid creation input; every optional field keeps its pydantic
default, in particular ar_config is the default-constructed configuration. -/
def inpRing : JewelryItemCreate :=
  { name := "Ring", type := .ring, price := { amount := 10 } }

/-- The empty store. -/
def st0 : StoreState := {}

/-- The store holding one freshly created active item with item_id aaaaaaaa. -/
def stOne : StoreState := (create_jewelry st0 randA 0 inpRing).2

/-- The store after the share counter of item aaaaaaaa was incremented twice
by two tracked share events. -/
def stShared2 : StoreState :=
  (track_event (track_event stOne randA 1 { jewelry_id := "aaaaaaaa", event_type := .share }).2
    randA 2 { jewelry_id := "aaaaaaaa", event_type := .share }).2

/-- The store in which item aaaaaaaa has been soft deleted (status archived). -/
def stArchived : StoreState := (delete_jewelry stOne "aaaaaaaa" 1).2

/-- An active catalog document with the given creation instant, for pagination
fixtures. -/
def mkDoc (i : Nat) : JewelryDoc :=
  { item_id := "x"
    name := "Item"
    type := .ring
    description := none
    price := { amount := 1 }
    images := {}
    ar_config := {}
    metadata := some {}
    stock := {}
    share_link := { short_code := "x", full_url := "u" }
    analytics := {}
    seo := {}
    created_at := i
    updated_at := i
    status := .active }

/-- A store with 45 active items, the pagination example of the spec. -/
def stW45 : StoreState := { jewelry_items := (List.range 45).map mkDoc }

/-- Two active items with try_ons 10 and 0 and conversions 2 and 0, the
conversion-rate example of the spec. -/
def stC3 : StoreState :=
  { jewelry_items := [{ mkDoc 0 with analytics := { try_ons := 10, conversions := 2 } },
                      { mkDoc 1 with analytics := { try_ons := 0, conversions := 0 } }] }

/-- The items the overall-analytics aggregation ranges over: exactly the
documents whose stored status is the string active. -/
def activeItems (st : StoreState) : List JewelryDoc :=
  st.jewelry_items.filter (fun d => JewelryStatus.toStr d.status == "active")

/-- The document stored in stOne, spelled out. -/
def docOne : JewelryDoc :=
  { item_id := "aaaaaaaa"
    name := "Ring"
    type := .ring
    description := none
    price := { amount := 10 }
    images := {}
    ar_config := {}
    metadata := some {}
    stock := {}
    share_link :=
      { short_code := "aaaaaaaa"
        full_url := "https://yoursite.com/try-on/aaaaaaaa"
        qr_code := some
          "https://api.qrserver.com/v1/create-qr-code/?size=200x200&data=https://yoursite.com/try-on/aaaaaaaa" }
    analytics := {}
    seo := { meta_title := some "Ring - Virtual Try-On", meta_description := some "" }
    created_at := 0
    updated_at := 0
    status := .active }

/-! General lemmas about the store primitives. -/

theorem updateFirst_of_forall_false {α : Type _} {p : α → Bool} (f : α → α) {l : List α}
    (h : ∀ x ∈ l, p x = false) : updateFirst p f l = l := by
  induction l with
  | nil => rfl
  | cons x xs ih =>
    have hx := h x (List.mem_cons_self x xs)
    simp only [updateFirst, hx, Bool.false_eq_true, if_false]
    rw [ih (fun y hy => h y (List.mem_cons_of_mem x hy))]

/-- A successful find_one splits the list as the unmatched prefix, the hit, and
the tail, and an update_one on the same filter rewrites exactly the hit. -/
theorem find?_some_decomp {α : Type _} {p : α → Bool} {l : List α} {a : α}
    (h : l.find? p = some a) :
    ∃ l₁ l₂, l = l₁ ++ a :: l₂ ∧ (∀ x ∈ l₁, p x = false) ∧ p a = true ∧
      ∀ f : α → α, updateFirst p f l = l₁ ++ f a :: l₂ := by
  induction l with
  | nil => simp at h
  | cons x xs ih =>
    by_cases hx : p x
    · rw [List.find?_cons_of_pos _ hx] at h
      obtain rfl : x = a := by injection h
      exact ⟨[], xs, rfl, by simp, hx, fun f => by simp [updateFirst, hx]⟩
    · rw [List.find?_cons_of_neg _ hx] at h
      obtain ⟨l₁, l₂, h1, h2, h3, h4⟩ := ih h
      refine ⟨x :: l₁, l₂, by simp [h1], ?_, h3, fun f => ?_⟩
      · intro y hy
        rcases List.mem_cons.mp hy with rfl | hy
        · exact Bool.eq_false_iff.mpr hx
        · exact h2 y hy
      · simp only [updateFirst, Bool.eq_false_iff.mpr hx, Bool.false_eq_true, if_false,
          List.cons_append]
        rw [h4 f]

theorem find?_append_cons {α : Type _} {p : α → Bool} {l₁ : List α} (a : α) (l₂ : List α)
    (h₁ : ∀ x ∈ l₁, p x = false) (h₂ : p a = true) :
    (l₁ ++ a :: l₂).find? p = some a := by
  induction l₁ with
  | nil => simpa [List.find?_cons] using List.find?_cons_of_pos l₂ h₂
  | cons x xs ih =>
    have hx := h₁ x (List.mem_cons_self x xs)
    simp only [List.cons_append]
    rw [List.find?_cons_of_neg _ (by simp [hx])]
    exact ih (fun y hy => h₁ y (List.mem_cons_of_mem x hy))

/-- When the rewrite preserves an observation g, an update_one is invisible to
a map of g; in particular update_one never changes the multiset of item ids. -/
theorem map_updateFirst {α β : Type _} {p : α → Bool} {f : α → α} (g : α → β)
    (h : ∀ a, p a = true → g (f a) = g a) (l : List α) :
    (updateFirst p f l).map g = l.map g := by
  induction l with
  | nil => rfl
  | cons x xs ih =>
    by_cases hx : p x
    · simp [updateFirst, hx, h x hx]
    · simp [updateFirst, hx, ih]

theorem generate_length (size : Nat) (rand : Nat → Char) :
    (generate size rand).length = size := by
  simp [generate, String.length]

/-! Sorting facts. -/

theorem sortByCreatedDesc_perm (l : List JewelryDoc) : (sortByCreatedDesc l).Perm l :=
  List.perm_insertionSort _ l

theorem sortByCreatedDesc_sorted (l : List JewelryDoc) :
    List.Pairwise (fun a b => b.created_at ≤ a.created_at) (sortByCreatedDesc l) :=
  @List.sorted_insertionSort JewelryDoc (fun a b => b.created_at ≤ a.created_at) _
    ⟨fun a b => Nat.le_total b.created_at a.created_at⟩
    ⟨fun _ _ _ h1 h2 => Nat.le_trans h2 h1⟩ l

theorem sortByTryOnsDesc_perm (l : List JewelryDoc) :
    (l.insertionSort (fun a b => b.analytics.try_ons ≤ a.analytics.try_ons)).Perm l :=
  List.perm_insertionSort _ l

theorem sortByTryOnsDesc_sorted (l : List JewelryDoc) :
    List.Pairwise (fun a b => b.analytics.try_ons ≤ a.analytics.try_ons)
      (l.insertionSort (fun a b => b.analytics.try_ons ≤ a.analytics.try_ons)) :=
  @List.sorted_insertionSort JewelryDoc (fun a b => b.analytics.try_ons ≤ a.analytics.try_ons) _
    ⟨fun a b => Nat.le_total b.analytics.try_ons a.analytics.try_ons⟩
    ⟨fun _ _ _ h1 h2 => Nat.le_trans h2 h1⟩ l

/-! Aggregation facts. -/

theorem foldl_groupStep (l : List JewelryDoc) (acc : GroupAcc) :
    l.foldl groupStep acc =
      { total_items := acc.total_items + l.length
        total_views := acc.total_views + (l.map (fun d => d.analytics.views)).sum
        total_try_ons := acc.total_try_ons + (l.map (fun d => d.analytics.try_ons)).sum
        total_shares := acc.total_shares + (l.map (fun d => d.analytics.shares)).sum
        total_conversions := acc.total_conversions + (l.map (fun d => d.analytics.conversions)).sum
        total_revenue := acc.total_revenue + (l.map (fun d => d.analytics.revenue_generated)).sum } := by
  induction l generalizing acc with
  | nil => simp
  | cons d ds ih =>
    simp only [List.foldl_cons, ih, List.map_cons, List.sum_cons, List.length_cons, groupStep]
    simp only [GroupAcc.mk.injEq]
    refine ⟨by omega, by omega, by omega, by omega, by omega, by ring⟩

theorem aggregateSummary_eq (l : List JewelryDoc) :
    aggregateSummary l =
      { total_items := l.length
        total_views := (l.map (fun d => d.analytics.views)).sum
        total_try_ons := (l.map (fun d => d.analytics.try_ons)).sum
        total_shares := (l.map (fun d => d.analytics.shares)).sum
        total_conversions := (l.map (fun d => d.analytics.conversions)).sum
        total_revenue := (l.map (fun d => d.analytics.revenue_generated)).sum } := by
  rw [aggregateSummary, foldl_groupStep]
  simp

/-! Floor-division and ceiling arithmetic for the pagination formula. -/

theorem fdiv_ceil_eq (t : Nat) (ps : Int) (h : 1 ≤ ps) :
    Int.fdiv ((t : Int) + ps - 1) ps = ⌈(t : Rat) / (ps : Rat)⌉ := by
  have hps : (0 : Int) < ps := h
  have hq := Int.ediv_add_emod ((t : Int) + ps - 1) ps
  have hr0 := Int.emod_nonneg ((t : Int) + ps - 1) (by omega : ps ≠ 0)
  have hr1 := Int.emod_lt_of_pos ((t : Int) + ps - 1) hps
  rw [Int.fdiv_eq_ediv _ (by omega)]
  have hpsQ : (0 : Rat) < (ps : Rat) := by exact_mod_cast hps
  set q := ((t : Int) + ps - 1) / ps with hqdef
  set r := ((t : Int) + ps - 1) % ps with hrdef
  have e1 : (q - 1) * ps = ps * q - ps := by ring
  have hInt1 : (q - 1) * ps < (t : Int) := by linarith
  have e2 : q * ps = ps * q := by ring
  have hInt2 : (t : Int) ≤ q * ps := by linarith
  symm
  rw [Int.ceil_eq_iff]
  constructor
  · rw [lt_div_iff₀ hpsQ]
    calc ((q : Rat) - 1) * (ps : Rat) = (((q - 1) * ps : Int) : Rat) := by push_cast; ring
    _ < ((t : Int) : Rat) := by exact_mod_cast hInt1
    _ = ((t : Nat) : Rat) := by push_cast; rfl
  · rw [div_le_iff₀ hpsQ]
    calc ((t : Nat) : Rat) = (((t : Nat) : Int) : Rat) := by push_cast; rfl
    _ ≤ ((q * ps : Int) : Rat) := by exact_mod_cast hInt2
    _ = (q : Rat) * (ps : Rat) := by push_cast; ring

/-! Claim theorems. -/

/-- C7: when ar_config is supplied (or resolved to its pydantic default), Create
returns an item whose item_id has length 8, whose share_link.short_code equals
the item_id, whose status is active, whose two timestamps are both the same now,
and it inserts exactly one document; but the claim quantifies over every valid
creation input, and the input whose optional ar_config is an explicit null is
valid yet makes create_jewelry hit the never-imported name ARConfigModel at
main.py line 199, so that call returns the generic 500 envelope and inserts
nothing: the code contradicts the intended create contract. -/
theorem C7_create_contract (st : StoreState) (rand : Nat → Char) (now : Nat)
    (inp : JewelryItemCreate) (cfg : ARConfigModel) :
    (∃ resp st2,
      create_jewelry st rand now { inp with ar_config := some cfg } = (.ok resp, st2) ∧
      resp.item.item_id.length = 8 ∧
      resp.item.share_link.short_code = resp.item.item_id ∧
      resp.item.status = .active ∧
      resp.item.created_at = now ∧
      resp.item.updated_at = now ∧
      st2.jewelry_items = st.jewelry_items ++ [resp.item] ∧
      st2.analytics_events = st.analytics_events) ∧
    create_jewelry st rand now { inp with ar_config := none } = (.error .nameError, st) ∧
    create_jewelry st0 randA 0 { inpRing with ar_config := none } = (.error .nameError, st0) ∧
    ApiError.nameError.statusCode = 500 := by
  refine ⟨⟨_, _, rfl, ?_, rfl, rfl, rfl, rfl, rfl, rfl⟩, rfl, by decide, rfl⟩
  exact generate_length 8 rand

/-- C8: a valid creation input that leaves the optional ar_config at its
default (the field not supplied with a value, so pydantic fills in the
default-constructed ARConfigModel) creates successfully, and the created item
carries exactly the documented ar_config defaults: color #FFD700, size 30,
position_offset x 0 y 0, landmarks 234 and 454, render_type circle. -/
theorem C8_default_ar_config (st : StoreState) (rand : Nat → Char) (now : Nat)
    (n : String) (ty : JewelryType) (pr : PriceModel) (desc : Option String) :
    ∃ resp st2,
      create_jewelry st rand now { name := n, type := ty, description := desc, price := pr }
        = (.ok resp, st2) ∧
      resp.item.ar_config.color = "#FFD700" ∧
      resp.item.ar_config.size = 30 ∧
      resp.item.ar_config.position_offset.x = 0 ∧
      resp.item.ar_config.position_offset.y = 0 ∧
      resp.item.ar_config.landmarks = [234, 454] ∧
      resp.item.ar_config.render_type = "circle" ∧
      st2.jewelry_items = st.jewelry_items ++ [resp.item] := by
  exact ⟨_, _, rfl, rfl, rfl, rfl, rfl, rfl, rfl, rfl⟩

/-- C9: a List call with page_size 0 always reaches the total_pages division
(total_count + page_size - 1) // page_size with a zero divisor, so it yields
the ZeroDivisionError converted to the generic 500 envelope instead of a
paginated result, and that division error arises for no other page_size. -/
theorem C9_page_size_zero_divides (st : StoreState) (page : Int) (ty status : Option String) :
    get_all_jewelry st page 0 ty status = .error .zeroDivisionError ∧
    ApiError.zeroDivisionError.statusCode = 500 ∧
    ∀ ps : Int, get_all_jewelry st page ps ty status = .error .zeroDivisionError → ps = 0 := by
  refine ⟨?_, rfl, ?_⟩
  · simp [get_all_jewelry]
  · intro ps h
    simp only [get_all_jewelry] at h
    split_ifs at h with h1 h2 h3 <;>
      first
        | exact (beq_iff_eq).mp h3
        | exact absurd h (by simp)

/-- C1: a successful Get returns ok and rewrites exactly the fetched document,
incrementing its stored analytics.views by one and touching nothing else; Get
on an absent item_id returns NotFound with HTTP status 404 and leaves the store
unchanged; and three Get calls on a freshly created item leave its stored
analytics.views equal to 3. -/
theorem C1_get_view_counter (st : StoreState) (i : String) :
    (∀ d, st.jewelry_items.find? (fun x => x.item_id == i) = some d →
      ∃ pre post,
        st.jewelry_items = pre ++ d :: post ∧
        (∀ x ∈ pre, (x.item_id == i) = false) ∧
        (d.item_id == i) = true ∧
        (get_jewelry_by_id st i).1 = .ok { success := true, item := d } ∧
        (get_jewelry_by_id st i).2.jewelry_items =
          pre ++ { d with analytics := { d.analytics with views := d.analytics.views + 1 } } :: post ∧
        (get_jewelry_by_id st i).2.analytics_events = st.analytics_events) ∧
    (st.jewelry_items.find? (fun x => x.item_id == i) = none →
      get_jewelry_by_id st i = (.error .notFound, st) ∧ ApiError.notFound.statusCode = 404) ∧
    ((get_jewelry_by_id ((get_jewelry_by_id ((get_jewelry_by_id stOne "aaaaaaaa").2)
        "aaaaaaaa").2) "aaaaaaaa").2.jewelry_items.map (fun d => d.analytics.views) = [3]) := by
  refine ⟨?_, ?_, by decide⟩
  · intro d hd
    obtain ⟨pre, post, h1, h2, h3, h4⟩ := find?_some_decomp hd
    refine ⟨pre, post, h1, h2, h3, ?_, ?_, ?_⟩
    · simp [get_jewelry_by_id, hd]
    · simp [get_jewelry_by_id, hd, h4]
    · simp [get_jewelry_by_id, hd]
  · intro h
    exact ⟨by simp [get_jewelry_by_id, h], rfl⟩

/-- C10: the item returned by a successful Get is the snapshot read before the
view increment of that same call: the returned analytics.views equals the
stored value prior to the call and is exactly one less than the stored value
right after the call. -/
theorem C10_get_returns_pre_increment_snapshot (st : StoreState) (i : String) (d : JewelryDoc)
    (h : st.jewelry_items.find? (fun x => x.item_id == i) = some d) :
    ∃ resp st2, get_jewelry_by_id st i = (.ok resp, st2) ∧
      resp.item = d ∧
      resp.item.analytics.views = d.analytics.views ∧
      st2.jewelry_items.find? (fun x => x.item_id == i) =
        some { d with analytics := { d.analytics with views := d.analytics.views + 1 } } ∧
      ∀ d2, st2.jewelry_items.find? (fun x => x.item_id == i) = some d2 →
        d2.analytics.views = resp.item.analytics.views + 1 := by
  obtain ⟨pre, post, h1, h2, h3, h4⟩ := find?_some_decomp h
  have hfind : (updateFirst (fun x => x.item_id == i)
      (fun x => { x with analytics := { x.analytics with views := x.analytics.views + 1 } })
      st.jewelry_items).find? (fun x => x.item_id == i) =
      some { d with analytics := { d.analytics with views := d.analytics.views + 1 } } := by
    rw [h4]
    exact find?_append_cons _ _ h2 h3
  refine ⟨{ success := true, item := d },
    { st with jewelry_items := (updateFirst (fun x => x.item_id == i)
        (fun x => { x with analytics := { x.analytics with views := x.analytics.views + 1 } })
        st.jewelry_items) },
    by simp [get_jewelry_by_id, h], rfl, rfl, hfind, ?_⟩
  intro d2 hd2
  show d2.analytics.views = d.analytics.views + 1
  have hd2d : d2 = { d with analytics := { d.analytics with views := d.analytics.views + 1 } } := by
    have heq := hd2.symm.trans hfind
    injection heq
  rw [hd2d]

/-- C2: every TrackEvent call returns success and appends one event document
carrying a 16-character generated event_id and the server-side timestamp,
whether or not an item with the given jewelry_id exists; the counter field it
increments is named by the literal concatenation analytics. + event type + s;
when an item matches, exactly that item has exactly that counter incremented by
one with every other analytics field and every other document field untouched;
when no item matches, no item document changes at all. -/
theorem C2_track_event_counters (st : StoreState) (rand : Nat → Char) (now : Nat)
    (ev : AnalyticsEventCreate) :
    (track_event st rand now ev).1
      = .ok { success := true, message := "Event tracked successfully" } ∧
    (∃ doc : EventDoc,
      (track_event st rand now ev).2.analytics_events = st.analytics_events ++ [doc] ∧
      doc.event_id.length = 16 ∧
      doc.timestamp = now ∧
      doc.jewelry_id = ev.jewelry_id ∧
      doc.event_type = ev.event_type) ∧
    ("analytics." ++ EventType.toStr .view ++ "s" = "analytics.views" ∧
      "analytics." ++ EventType.toStr .share ++ "s" = "analytics.shares" ∧
      "analytics." ++ EventType.toStr .try_on ++ "s" = "analytics.try_ons") ∧
    (st.jewelry_items.find? (fun d => d.item_id == ev.jewelry_id) = none →
      (track_event st rand now ev).2.jewelry_items = st.jewelry_items) ∧
    (∀ d, st.jewelry_items.find? (fun d => d.item_id == ev.jewelry_id) = some d →
      ∃ pre post bumped,
        st.jewelry_items = pre ++ d :: post ∧
        (track_event st rand now ev).2.jewelry_items = pre ++ bumped :: post ∧
        bumped.analytics.views = d.analytics.views + (if ev.event_type = .view then 1 else 0) ∧
        bumped.analytics.shares = d.analytics.shares + (if ev.event_type = .share then 1 else 0) ∧
        bumped.analytics.try_ons
          = d.analytics.try_ons + (if ev.event_type = .try_on then 1 else 0) ∧
        bumped.analytics.conversions = d.analytics.conversions ∧
        bumped.analytics.revenue_generated = d.analytics.revenue_generated ∧
        { bumped with analytics := d.analytics } = d) := by
  refine ⟨rfl, ⟨_, rfl, generate_length 16 rand, rfl, rfl, rfl⟩, ⟨rfl, rfl, rfl⟩, ?_, ?_⟩
  · intro h
    show updateFirst (fun d => d.item_id == ev.jewelry_id) _ st.jewelry_items = st.jewelry_items
    exact updateFirst_of_forall_false _
      (fun x hx => Bool.eq_false_iff.mpr (List.find?_eq_none.mp h x hx))
  · intro d hd
    obtain ⟨pre, post, h1, h2, h3, h4⟩ := find?_some_decomp hd
    refine ⟨pre, post,
      d.incPath ("analytics." ++ EventType.toStr ev.event_type ++ "s"),
      h1, h4 _, ?_, ?_, ?_, ?_, ?_, ?_⟩ <;>
      cases ev.event_type <;> rfl

theorem pyRound2_zero : pyRound2 0 = 0 := by
  have h0 : roundHalfEven 0 = 0 := by
    have : ((0 : Int) : Rat) = (0 : Rat) := by norm_num
    rw [roundHalfEven]
    norm_num
  rw [pyRound2]
  norm_num [h0]

/-- C3: the overall-analytics summary counts exactly the active items, sums
their views, try_ons, shares, conversions and revenue, computes the conversion
rate as conversions over try_ons times 100 rounded to two decimals whenever the
summed try_ons is positive and as 0 when it is zero (the division is guarded,
never an error), and the top_items are the 5 active items with the largest
analytics.try_ons in descending order; on the two-item example store with
try_ons 10 and 0 and conversions 2 and 0 the rate is exactly 20. -/
theorem C3_overall_aggregates (st : StoreState) :
    (get_overall_analytics st).summary.total_items = (activeItems st).length ∧
    (get_overall_analytics st).summary.total_views
      = ((activeItems st).map (fun d => d.analytics.views)).sum ∧
    (get_overall_analytics st).summary.total_try_ons
      = ((activeItems st).map (fun d => d.analytics.try_ons)).sum ∧
    (get_overall_analytics st).summary.total_shares
      = ((activeItems st).map (fun d => d.analytics.shares)).sum ∧
    (get_overall_analytics st).summary.total_conversions
      = ((activeItems st).map (fun d => d.analytics.conversions)).sum ∧
    (get_overall_analytics st).summary.total_revenue
      = ((activeItems st).map (fun d => d.analytics.revenue_generated)).sum ∧
    (get_overall_analytics st).summary.conversion_rate
      = (if 0 < ((activeItems st).map (fun d => d.analytics.try_ons)).sum then
          pyRound2 (((((activeItems st).map (fun d => d.analytics.conversions)).sum : Nat) : Rat)
            / ((((activeItems st).map (fun d => d.analytics.try_ons)).sum : Nat) : Rat) * 100)
        else 0) ∧
    (get_overall_analytics st).top_items.length = min 5 (activeItems st).length ∧
    List.Pairwise (fun a b => b.analytics.try_ons ≤ a.analytics.try_ons)
      (get_overall_analytics st).top_items ∧
    (∃ l, l.Perm (activeItems st) ∧
      List.Pairwise (fun a b => b.analytics.try_ons ≤ a.analytics.try_ons) l ∧
      (get_overall_analytics st).top_items = l.take 5) ∧
    (get_overall_analytics stC3).summary.total_try_ons = 10 ∧
    (get_overall_analytics stC3).summary.conversion_rate = 20 := by
  refine ⟨?_, ?_, ?_, ?_, ?_, ?_, ?_, ?_, ?_, ?_, by decide, ?_⟩
  · simp [get_overall_analytics, aggregateSummary_eq, activeItems]
  · simp [get_overall_analytics, aggregateSummary_eq, activeItems]
  · simp [get_overall_analytics, aggregateSummary_eq, activeItems]
  · simp [get_overall_analytics, aggregateSummary_eq, activeItems]
  · simp [get_overall_analytics, aggregateSummary_eq, activeItems]
  · simp [get_overall_analytics, aggregateSummary_eq, activeItems]
  · show pyRound2 (if (aggregateSummary (activeItems st)).total_try_ons > 0 then
        (((aggregateSummary (activeItems st)).total_conversions : Nat) : Rat)
          / (((aggregateSummary (activeItems st)).total_try_ons : Nat) : Rat) * 100
      else 0) = _
    rw [aggregateSummary_eq]
    rcases Nat.eq_zero_or_pos ((activeItems st).map (fun d => d.analytics.try_ons)).sum with hz | hpos
    · rw [hz]
      simp [pyRound2_zero]
    · rw [if_pos hpos, if_pos hpos]
  · show (((activeItems st).insertionSort
        (fun a b => b.analytics.try_ons ≤ a.analytics.try_ons)).take 5).length
      = min 5 (activeItems st).length
    rw [List.length_take, (sortByTryOnsDesc_perm (activeItems st)).length_eq]
  · exact List.Pairwise.sublist (List.take_sublist 5 _) (sortByTryOnsDesc_sorted (activeItems st))
  · exact ⟨_, sortByTryOnsDesc_perm (activeItems st), sortByTryOnsDesc_sorted (activeItems st), rfl⟩
  · show pyRound2 (if (10 : Nat) > 0 then ((2 : Nat) : Rat) / ((10 : Nat) : Rat) * 100 else 0) = 20
    norm_num [pyRound2, roundHalfEven]

/-- C4 (amended to pages at least 1): List with a positive page and a positive
page_size returns the items matching the filters in created_at descending
order, skipping (page - 1) * page_size of them and keeping at most page_size,
with count the number of returned items, total_count the number of all
matching items, and total_pages the ceiling of total_count over page_size; with
page_size 20 and 45 matching items page 1 carries 20 items and 3 total pages. -/
theorem C4_list_pagination (st : StoreState) (page page_size : Int)
    (ty status : Option String) (hp : 1 ≤ page) (hs : 1 ≤ page_size) :
    (∃ resp : ListResponse, get_all_jewelry st page page_size ty status = .ok resp ∧
      (∃ l : List JewelryDoc, l.Perm (st.jewelry_items.filter (matchesQuery ty status)) ∧
        List.Pairwise (fun a b => b.created_at ≤ a.created_at) l ∧
        resp.items = (l.drop ((page - 1) * page_size).toNat).take page_size.toNat) ∧
      resp.count = resp.items.length ∧
      resp.page = page ∧
      resp.page_size = page_size ∧
      resp.total_count = (st.jewelry_items.filter (matchesQuery ty status)).length ∧
      resp.total_pages = ⌈((resp.total_count : Nat) : Rat) / (page_size : Rat)⌉) ∧
    (get_all_jewelry stW45 1 20 none (some "active")).toOption.map
      (fun r => (r.total_pages, r.count)) = some (3, 20) := by
  have hskip : ¬ ((page - 1) * page_size < 0) := by
    have := mul_nonneg (by omega : (0 : Int) ≤ page - 1) (by omega : (0 : Int) ≤ page_size)
    omega
  have hneg : ¬ (page_size < 0) := by omega
  have hne : (page_size == 0) = false := by
    simp only [beq_eq_false_iff_ne, ne_eq]
    omega
  refine ⟨?_, by decide⟩
  simp only [get_all_jewelry, if_neg hskip, if_neg hneg, hne, Bool.false_eq_true, if_false]
  refine ⟨_, rfl,
    ⟨sortByCreatedDesc (st.jewelry_items.filter (matchesQuery ty status)),
      sortByCreatedDesc_perm _, sortByCreatedDesc_sorted _, rfl⟩,
    rfl, rfl, rfl, rfl, ?_⟩
  exact fdiv_ceil_eq (st.jewelry_items.filter (matchesQuery ty status)).length page_size hs

/-- C5 (amended): no operation ever removes an item document (the stored list
of item ids only ever grows by appended new ids), and SoftDelete turns exactly
the status of exactly the matched document to archived, refreshing its updated_at, failing
NotFound when nothing matches; the original transition-only claim fails
because Update accepts any status value, which can move an archived item back
to draft or active. -/
theorem C5_soft_delete_and_no_removal (op : Op) (st : StoreState) :
    (∃ rest, (applyOp op st).jewelry_items.map (fun d => d.item_id)
        = st.jewelry_items.map (fun d => d.item_id) ++ rest) ∧
    (∀ i now d, st.jewelry_items.find? (fun x => x.item_id == i) = some d →
      ∃ pre post, st.jewelry_items = pre ++ d :: post ∧
        (delete_jewelry st i now).1
          = .ok { success := true, message := "Jewelry item deleted successfully" } ∧
        (delete_jewelry st i now).2.jewelry_items
          = pre ++ { d with status := .archived, updated_at := now } :: post) ∧
    (∀ i now, st.jewelry_items.find? (fun x => x.item_id == i) = none →
      delete_jewelry st i now = (.error .notFound, st)) := by
  refine ⟨?_, ?_, ?_⟩
  · cases op with
    | getOne i =>
      show ∃ rest, (get_jewelry_by_id st i).2.jewelry_items.map (fun d => d.item_id) = _
      cases hf : st.jewelry_items.find? (fun d => d.item_id == i) with
      | none => exact ⟨[], by simp [get_jewelry_by_id, hf]⟩
      | some d =>
        refine ⟨[], ?_⟩
        rw [List.append_nil]
        simp only [get_jewelry_by_id, hf]
        refine map_updateFirst _ (fun a _ => ?_) _
        rfl
    | listAll page page_size t s => exact ⟨[], by simp [applyOp]⟩
    | create rand now inp =>
      show ∃ rest, (create_jewelry st rand now inp).2.jewelry_items.map (fun d => d.item_id) = _
      cases harc : inp.ar_config with
      | none => exact ⟨[], by simp [create_jewelry, harc]⟩
      | some cfg =>
        refine ⟨[(generate_short_code rand)], ?_⟩
        simp [create_jewelry, harc]
    | update i upd now =>
      show ∃ rest, (update_jewelry st i upd now).2.jewelry_items.map (fun d => d.item_id) = _
      cases hf : st.jewelry_items.find? (fun d => d.item_id == i) with
      | none => exact ⟨[], by simp [update_jewelry, hf]⟩
      | some d =>
        refine ⟨[], ?_⟩
        rw [List.append_nil]
        have hmap : (updateFirst (fun x => x.item_id == i) (applyUpdate upd now)
            st.jewelry_items).map (fun d => d.item_id)
            = st.jewelry_items.map (fun d => d.item_id) := by
          refine map_updateFirst _ (fun a _ => ?_) _
          rfl
        simp only [update_jewelry, hf]
        cases hf2 : (updateFirst (fun x => x.item_id == i) (applyUpdate upd now)
            st.jewelry_items).find? (fun d => d.item_id == i) with
        | none => simpa [hf2] using hmap
        | some u => simpa [hf2] using hmap
    | softDelete i now =>
      show ∃ rest, (delete_jewelry st i now).2.jewelry_items.map (fun d => d.item_id) = _
      refine ⟨[], ?_⟩
      rw [List.append_nil]
      have hmap : (updateFirst (fun x => x.item_id == i)
          (fun d => { d with status := .archived, updated_at := now })
          st.jewelry_items).map (fun d => d.item_id)
          = st.jewelry_items.map (fun d => d.item_id) := by
        refine map_updateFirst _ (fun a _ => ?_) _
        rfl
      by_cases hm : st.jewelry_items.any (fun d => d.item_id == i)
      · simpa [delete_jewelry, hm] using hmap
      · simpa [delete_jewelry, hm] using hmap
    | trackEvent rand now inp =>
      show ∃ rest, (track_event st rand now inp).2.jewelry_items.map (fun d => d.item_id) = _
      refine ⟨[], ?_⟩
      rw [List.append_nil]
      refine map_updateFirst _ (fun a _ => ?_) _
      show (a.incPath _).item_id = a.item_id
      rw [JewelryDoc.incPath]
      split_ifs <;> rfl
    | itemAnalytics i => exact ⟨[], by simp [applyOp]⟩
    | overallAnalytics => exact ⟨[], by simp [applyOp]⟩
  · intro i now d hd
    obtain ⟨pre, post, h1, h2, h3, h4⟩ := find?_some_decomp hd
    have hm : st.jewelry_items.any (fun x => x.item_id == i) = true :=
      List.any_eq_true.mpr ⟨d, by rw [h1]; exact List.mem_append_right _ (List.mem_cons_self d post), h3⟩
    exact ⟨pre, post, h1, by simp [delete_jewelry, hm], by simp [delete_jewelry, hm, h4]⟩
  · intro i now h
    have hall : ∀ x ∈ st.jewelry_items, (x.item_id == i) = false :=
      fun x hx => Bool.eq_false_iff.mpr (List.find?_eq_none.mp h x hx)
    have hm : st.jewelry_items.any (fun x => x.item_id == i) = false := by
      rw [List.any_eq_false]
      intro x hx
      simp [hall x hx]
    simp [delete_jewelry, hm, updateFirst_of_forall_false _ hall]

/-- C6: Update on an absent item_id fails NotFound with the store untouched;
Update on an existing item rewrites exactly the supplied fields plus
updated_at, leaves every unset field at its prior value, can never change
analytics, share_link, item_id, images, seo or created_at, stores the returned
item back in place, and whenever the call happens strictly after the prior
updated_at instant the stored updated_at strictly increases. -/
theorem C6_update_only_supplied_fields (st : StoreState) (i : String) (upd : JewelryItemUpdate)
    (now : Nat) :
    (st.jewelry_items.find? (fun d => d.item_id == i) = none →
      update_jewelry st i upd now = (.error .notFound, st)) ∧
    (∀ old, st.jewelry_items.find? (fun d => d.item_id == i) = some old →
      ∃ pre post resp st2,
        st.jewelry_items = pre ++ old :: post ∧
        update_jewelry st i upd now = (.ok resp, st2) ∧
        st2.jewelry_items = pre ++ resp.item :: post ∧
        st2.analytics_events = st.analytics_events ∧
        resp.item.name = (match upd.name with | some v => v | none => old.name) ∧
        resp.item.type = (match upd.type with | some v => v | none => old.type) ∧
        resp.item.description
          = (match upd.description with | some v => some v | none => old.description) ∧
        resp.item.price = (match upd.price with | some v => v | none => old.price) ∧
        resp.item.metadata
          = (match upd.metadata with | some v => some v | none => old.metadata) ∧
        resp.item.ar_config = (match upd.ar_config with | some v => v | none => old.ar_config) ∧
        resp.item.stock = (match upd.stock with | some v => v | none => old.stock) ∧
        resp.item.status = (match upd.status with | some v => v | none => old.status) ∧
        resp.item.item_id = old.item_id ∧
        resp.item.images = old.images ∧
        resp.item.share_link = old.share_link ∧
        resp.item.analytics = old.analytics ∧
        resp.item.seo = old.seo ∧
        resp.item.created_at = old.created_at ∧
        resp.item.updated_at = now ∧
        (old.updated_at < now → old.updated_at < resp.item.updated_at)) := by
  constructor
  · intro h
    simp [update_jewelry, h]
  · intro old hd
    obtain ⟨pre, post, h1, h2, h3, h4⟩ := find?_some_decomp hd
    have hfind2 : (updateFirst (fun d => d.item_id == i) (applyUpdate upd now)
        st.jewelry_items).find? (fun d => d.item_id == i) = some (applyUpdate upd now old) := by
      rw [h4]
      exact find?_append_cons _ _ h2 h3
    refine ⟨pre, post,
      { success := true, message := "Jewelry item updated successfully"
        item := applyUpdate upd now old },
      { st with jewelry_items := (updateFirst (fun d => d.item_id == i)
          (applyUpdate upd now) st.jewelry_items) },
      h1, ?_, ?_, rfl, ?_, ?_, ?_, ?_, ?_, ?_, ?_, ?_, rfl, rfl, rfl, rfl, rfl, rfl, rfl,
      fun hlt => hlt⟩
    · simp [update_jewelry, hd, hfind2]
    · show updateFirst (fun d => d.item_id == i) (applyUpdate upd now) st.jewelry_items = _
      rw [h4]
    · show (applyUpdate upd now old).name = _
      rcases hv : upd.name with _ | v <;> simp [applyUpdate, hv]
    · show (applyUpdate upd now old).type = _
      rcases hv : upd.type with _ | v <;> simp [applyUpdate, hv]
    · show (applyUpdate upd now old).description = _
      rcases hv : upd.description with _ | v <;> simp [applyUpdate, hv]
    · show (applyUpdate upd now old).price = _
      rcases hv : upd.price with _ | v <;> simp [applyUpdate, hv]
    · show (applyUpdate upd now old).metadata = _
      rcases hv : upd.metadata with _ | v <;> simp [applyUpdate, hv]
    · show (applyUpdate upd now old).ar_config = _
      rcases hv : upd.ar_config with _ | v <;> simp [applyUpdate, hv]
    · show (applyUpdate upd now old).stock = _
      rcases hv : upd.stock with _ | v <;> simp [applyUpdate, hv]
    · show (applyUpdate upd now old).status = _
      rcases hv : upd.status with _ | v <;> simp [applyUpdate, hv]

/-- C4 counterexample: the claim quantifies over every page, but at page 0 with
page_size 20 the handler hands the negative skip -20 to the store driver, which
rejects it, so the call produces the 500 envelope and no paginated response at
all. -/
theorem C4_counterexample :
    get_all_jewelry st0 0 20 none none = .error .valueError := by decide

/-- C5 counterexample: update_jewelry applies any supplied status value without
a transition guard, so one Update call moves the archived item of stArchived
(reached by Create then SoftDelete) back to draft, and the call reports
success. -/
theorem C5_counterexample :
    stArchived.jewelry_items.map (fun d => d.status) = [.archived] ∧
    ((update_jewelry stArchived "aaaaaaaa" { status := some .draft } 2).2.jewelry_items.map
      (fun d => d.status)) = [.draft] ∧
    ((update_jewelry stArchived "aaaaaaaa" { status := some .draft } 2).1.toOption.map
      (fun r => r.message)) = some "Jewelry item updated successfully" := by
  refine ⟨by decide, by decide, by decide⟩

/-- C1 witness: the general Get theorem applied to the one-item store. -/
theorem C1_witness :
    stOne.jewelry_items.find? (fun x => x.item_id == "aaaaaaaa") = some docOne ∧
    ∃ pre post,
      stOne.jewelry_items = pre ++ docOne :: post ∧
      (get_jewelry_by_id stOne "aaaaaaaa").1 = .ok { success := true, item := docOne } ∧
      (get_jewelry_by_id stOne "aaaaaaaa").2.jewelry_items = pre ++
        { docOne with analytics :=
          { docOne.analytics with views := docOne.analytics.views + 1 } } :: post := by
  refine ⟨by decide, ?_⟩
  obtain ⟨pre, post, h1, _, _, h4, h5, _⟩ :=
    (C1_get_view_counter stOne "aaaaaaaa").1 docOne (by decide)
  exact ⟨pre, post, h1, h4, h5⟩

/-- C2 witness: tracking a share event against the item whose shares counter
is 2 leaves the stored counter at 3. -/
theorem C2_witness :
    stShared2.jewelry_items.find? (fun d => d.item_id == "aaaaaaaa")
      = some { docOne with analytics := { docOne.analytics with shares := 2 } } ∧
    ∃ pre post bumped,
      stShared2.jewelry_items = pre ++
        { docOne with analytics := { docOne.analytics with shares := 2 } } :: post ∧
      (track_event stShared2 randA 3
        { jewelry_id := "aaaaaaaa", event_type := .share }).2.jewelry_items
        = pre ++ bumped :: post ∧
      bumped.analytics.shares = 3 := by
  refine ⟨by decide, ?_⟩
  obtain ⟨pre, post, bumped, h1, h2, hviews, hshares, htry, hconv, hrev, hframe⟩ :=
    (C2_track_event_counters stShared2 randA 3
      { jewelry_id := "aaaaaaaa", event_type := .share }).2.2.2.2
      { docOne with analytics := { docOne.analytics with shares := 2 } } (by decide)
  refine ⟨pre, post, bumped, h1, h2, ?_⟩
  rw [hshares]
  decide

/-- C4 witness: the amended pagination theorem applied to the 45-item store at
page 1 with page_size 20. -/
theorem C4_witness :
    (1 : Int) ≤ 1 ∧ (1 : Int) ≤ 20 ∧
    ∃ resp : ListResponse, get_all_jewelry stW45 1 20 none (some "active") = .ok resp ∧
      resp.count = resp.items.length ∧ resp.total_pages = 3 ∧ resp.count = 20 := by
  refine ⟨by decide, by decide, ?_⟩
  obtain ⟨⟨resp, hok, _, hcount, _, _, _, _⟩, _⟩ :=
    C4_list_pagination stW45 1 20 none (some "active") (by decide) (by decide)
  have hconc := (C4_list_pagination stW45 1 20 none (some "active")
    (by decide) (by decide)).2
  rw [hok] at hconc
  simp only [Except.toOption, Option.map_some] at hconc
  have hpair := Option.some.inj hconc
  exact ⟨resp, hok, hcount, congrArg Prod.fst hpair, congrArg Prod.snd hpair⟩

/-- C5 witness: soft deleting the one-item store archives exactly the stored
document. -/
theorem C5_witness :
    stOne.jewelry_items.find? (fun x => x.item_id == "aaaaaaaa") = some docOne ∧
    ∃ pre post, stOne.jewelry_items = pre ++ docOne :: post ∧
      (delete_jewelry stOne "aaaaaaaa" 1).1
        = .ok { success := true, message := "Jewelry item deleted successfully" } ∧
      (delete_jewelry stOne "aaaaaaaa" 1).2.jewelry_items
        = pre ++ { docOne with status := .archived, updated_at := 1 } :: post :=
  ⟨by decide,
    (C5_soft_delete_and_no_removal (Op.softDelete "aaaaaaaa" 1) stOne).2.1
      "aaaaaaaa" 1 docOne (by decide)⟩

/-- C6 witness: updating only the name leaves price, ar_config, status,
analytics and share_link unchanged and strictly increases updated_at. -/
theorem C6_witness :
    stOne.jewelry_items.find? (fun d => d.item_id == "aaaaaaaa") = some docOne ∧
    docOne.updated_at < 5 ∧
    ∃ resp st2, update_jewelry stOne "aaaaaaaa" { name := some "New Name" } 5
        = (.ok resp, st2) ∧
      resp.item.name = "New Name" ∧
      resp.item.price = docOne.price ∧
      resp.item.ar_config = docOne.ar_config ∧
      resp.item.status = docOne.status ∧
      resp.item.analytics = docOne.analytics ∧
      resp.item.share_link = docOne.share_link ∧
      docOne.updated_at < resp.item.updated_at := by
  refine ⟨by decide, by decide, ?_⟩
  obtain ⟨pre, post, resp, st2, h1, hcall, h3, h4, hname, htype, hdesc, hprice, hmeta,
      harc, hstock, hstatus, hid, himg, hsl, han, hseo, hca, hua, himp⟩ :=
    (C6_update_only_supplied_fields stOne "aaaaaaaa" { name := some "New Name" } 5).2 docOne (by decide)
  refine ⟨resp, st2, hcall, ?_, ?_, ?_, ?_, han, hsl, himp (by decide)⟩
  · simpa using hname
  · simpa using hprice
  · simpa using harc
  · simpa using hstatus

/-- C9 witness: the page_size 0 theorem applied at a concrete page. -/
theorem C9_witness :
    get_all_jewelry st0 7 0 none none = .error .zeroDivisionError ∧ (0 : Int) = 0 :=
  ⟨(C9_page_size_zero_divides st0 7 none none).1,
    (C9_page_size_zero_divides st0 7 none none).2.2 0
      (C9_page_size_zero_divides st0 7 none none).1⟩

/-- C10 witness: the snapshot theorem applied to the one-item store. -/
theorem C10_witness :
    stOne.jewelry_items.find? (fun x => x.item_id == "aaaaaaaa") = some docOne ∧
    ∃ resp st2, get_jewelry_by_id stOne "aaaaaaaa" = (.ok resp, st2) ∧
      resp.item = docOne ∧
      st2.jewelry_items.find? (fun x => x.item_id == "aaaaaaaa") = some
        { docOne with analytics :=
          { docOne.analytics with views := docOne.analytics.views + 1 } } := by
  refine ⟨by decide, ?_⟩
  obtain ⟨resp, st2, h1, h2, h3, h4, h5⟩ :=
    C10_get_returns_pre_increment_snapshot stOne "aaaaaaaa" docOne (by decide)
  exact ⟨resp, st2, h1, h2, h4⟩

end Tryon
